import Mathlib

/-!
Verification of the Haven manager API boundary (src/manager/api/api.ts).

The file embeds the request handlers of the manager API as pure Lean
functions.  Upstream collaborators (the Compute Fleet API, the per-worker
shutdown endpoint, the setup controller) are modelled by an explicit
environment value describing how each upstream call would respond, and each
handler returns, besides its result, the trace of upstream calls it issued
and the log lines it emitted.
-/

namespace Haven

/-- Connect error codes used at the boundary (subset of `@bufbuild/connect`'s `Code`). -/
inductive Code where
  | NotFound
  | FailedPrecondition
  | Internal
  | Unauthenticated
  | InvalidArgument
deriving DecidableEq, Repr

/-- A `ConnectError`: a code together with its message. -/
structure HError where
  code : Code
  msg : String
deriving DecidableEq, Repr

/-- A worker record as returned by the Compute Fleet API listing
(`list(api)` in the source).  `name` and `status` are optional because the
cloud record may omit them (`worker.name` can be `undefined` in the source);
`address` is the network address the endpoint resolver reads. -/
structure GWorker where
  name : Option String
  status : Option String
  address : Option String
deriving DecidableEq, Repr

/-- Modelled from the spec: `getWorkerIP` (src/manager/lib/workers.ts is not in
the source tree).  The spec's Endpoint Resolver contract: `resolve(worker) ->
address or absent`, a pure function of the worker record's current address
field, performing no I/O. -/
def getWorkerIP (w : GWorker) : Option String :=
  w.address

/-- An upstream mutating call issued by a handler, in issue order. -/
inductive UpstreamCall where
  | shutdown (addr : String)
  | pauseVM (name : String)
  | startVM (name : String)
  | removeVM (name : String)
deriving DecidableEq, Repr

/-- The behaviour of the upstream collaborators for one request:
the Compute Fleet listing, and for each fallible upstream call either
success (`none`) or failure with the given error message (`some msg`). -/
structure FleetEnv where
  workers : List GWorker
  shutdownErr : Option String
  pauseErr : Option String
  startErr : Option String
  removeErr : Option String
deriving DecidableEq, Repr

/-- Result of one boundary operation: the outcome returned to the caller,
the trace of upstream mutating calls issued, and the log lines emitted. -/
structure OpOutcome (α : Type) where
  result : Except HError α
  calls : List UpstreamCall
  logs : List String

/-- `workers.find((worker) => worker.name === workerName)` from the source:
first record of the listing whose `name` field equals the requested name.
A record with a missing `name` never matches (in TS, `undefined === s` is
false for a string `s`). -/
def findWorker (ws : List GWorker) (n : String) : Option GWorker :=
  ws.find? (fun w => decide (w.name = some n))

/-- The `NotFound` message template of the source handlers. -/
def notFoundMsg (n : String) : String :=
  "Worker " ++ n ++ " does not exist"

/-- Log line of a failed best-effort shutdown notification. -/
def shutdownLogMsg (n m : String) : String :=
  "Error sending shutdown signal to worker " ++ n ++ ": " ++ m

/-- The best-effort shutdown-notification step shared by `pauseWorker` and
`deleteWorker`: if the worker has a resolved address, issue the shutdown call;
a failure of that call is logged and swallowed (`.catch` in the source). -/
def shutdownStep (env : FleetEnv) (workerName : String) (w : GWorker) :
    List UpstreamCall × List String :=
  match getWorkerIP w with
  | none => ([], [])
  | some ip =>
    match env.shutdownErr with
    | none => ([UpstreamCall.shutdown ip], [])
    | some m => ([UpstreamCall.shutdown ip], [shutdownLogMsg workerName m])

/-- `pauseWorker` (src/manager/api/api.ts lines 138-166): look the worker up in
the fresh listing; reject with `NotFound` if absent or its name field is falsy;
best-effort shutdown notification; then `pause(api, worker.name)`, mapping an
upstream failure to `Internal`. -/
def pauseWorker (env : FleetEnv) (workerName : String) : OpOutcome String :=
  match findWorker env.workers workerName with
  | none => ⟨.error ⟨.NotFound, notFoundMsg workerName⟩, [], []⟩
  | some w =>
    match w.name with
    | none => ⟨.error ⟨.NotFound, notFoundMsg workerName⟩, [], []⟩
    | some nm =>
      if nm = "" then ⟨.error ⟨.NotFound, notFoundMsg workerName⟩, [], []⟩
      else
        let sh := shutdownStep env workerName w
        match env.pauseErr with
        | none => ⟨.ok nm, sh.1 ++ [.pauseVM nm], sh.2⟩
        | some m =>
          ⟨.error ⟨.Internal, "Failed to pause worker " ++ workerName ++ ": " ++ m⟩,
            sh.1 ++ [.pauseVM nm], sh.2 ++ [m]⟩

/-- `resumeWorker` (src/manager/api/api.ts lines 172-196): like `pauseWorker`
but with a status precondition (`worker.status !== "TERMINATED"` fails with
`FailedPrecondition`) and no shutdown notification; then `start(api, worker.name)`. -/
def resumeWorker (env : FleetEnv) (workerName : String) : OpOutcome String :=
  match findWorker env.workers workerName with
  | none => ⟨.error ⟨.NotFound, notFoundMsg workerName⟩, [], []⟩
  | some w =>
    match w.name with
    | none => ⟨.error ⟨.NotFound, notFoundMsg workerName⟩, [], []⟩
    | some nm =>
      if nm = "" then ⟨.error ⟨.NotFound, notFoundMsg workerName⟩, [], []⟩
      else if w.status ≠ some "TERMINATED" then
        ⟨.error ⟨.FailedPrecondition, "Worker " ++ workerName ++ " is not paused"⟩, [], []⟩
      else
        match env.startErr with
        | none => ⟨.ok nm, [.startVM nm], []⟩
        | some m =>
          ⟨.error ⟨.Internal, "Failed to resume worker " ++ workerName ++ ": " ++ m⟩,
            [.startVM nm], [m]⟩

/-- `deleteWorker` (src/manager/api/api.ts lines 202-230): like `pauseWorker`
with `remove(api, worker.name)` in place of the pause call. -/
def deleteWorker (env : FleetEnv) (workerName : String) : OpOutcome String :=
  match findWorker env.workers workerName with
  | none => ⟨.error ⟨.NotFound, notFoundMsg workerName⟩, [], []⟩
  | some w =>
    match w.name with
    | none => ⟨.error ⟨.NotFound, notFoundMsg workerName⟩, [], []⟩
    | some nm =>
      if nm = "" then ⟨.error ⟨.NotFound, notFoundMsg workerName⟩, [], []⟩
      else
        let sh := shutdownStep env workerName w
        match env.removeErr with
        | none => ⟨.ok nm, sh.1 ++ [.removeVM nm], sh.2⟩
        | some m =>
          ⟨.error ⟨.Internal, "Failed to delete worker " ++ workerName ++ ": " ++ m⟩,
            sh.1 ++ [.removeVM nm], sh.2 ++ [m]⟩

/-! ### Setup (bootstrap) -/

/-- The process-wide setup gate (`config.setupDone` in the source). -/
structure SetupState where
  done : Bool
deriving DecidableEq, Repr

/-- Modelled from the spec: `setupController` (src/manager/controller/setup.ts is
not in the source tree).  Performing the bootstrap with a supplied credential
payload transitions `SetupState.done` to true and returns success. -/
def setupController (_st : SetupState) (_file : String) : Except HError Unit × SetupState :=
  (.ok (), ⟨true⟩)

/-- `setupHandler` (src/manager/api/api.ts lines 37-54): if setup is already
done, return success untouched; otherwise, with no key file, fail with
`FailedPrecondition`; otherwise run the setup controller. -/
def setupHandler (st : SetupState) (keyFile : Option String) :
    Except HError Unit × SetupState :=
  if st.done then (.ok (), st)
  else
    match keyFile with
    | none => (.error ⟨.FailedPrecondition, "Setup not complete."⟩, st)
    | some file => setupController st file

/-! ### Chat completion relay -/

/-- One inbound fragment of the upstream generation stream. -/
structure Fragment where
  text : String
deriving DecidableEq, Repr

/-- The boundary response type for one streamed chunk. -/
structure ChatCompletionResponse where
  text : String
deriving DecidableEq, Repr

/-- `chatCompletion`'s relay loop (src/manager/api/api.ts lines 63-72): for each
fragment arriving on the upstream stream (modelled as the list of fragments in
arrival order), yield one `ChatCompletionResponse` carrying the fragment's text. -/
def chatCompletion (stream : List Fragment) : List ChatCompletionResponse :=
  stream.map (fun d => ⟨d.text⟩)

/-! ### Request pipeline -/

/-- Per-request ambient state read by the middleware: whether the caller is
authenticated and whether setup has completed. -/
structure PipeCtx where
  authed : Bool
  setupDone : Bool
deriving DecidableEq, Repr

/-- A failure escaping a handler: either an already-typed `ConnectError`, or a
raw (otherwise-unhandled) exception. -/
inductive Failure where
  | connect (e : HError)
  | raw (msg : String)
deriving DecidableEq, Repr

/-- A boundary handler: request and ambient state to result or failure. -/
def Handler (α β : Type) : Type :=
  α → PipeCtx → Except Failure β

/-- Modelled from the spec: the `validate` middleware (src/manager/api/validate.ts
is not in the source tree) rejects malformed input with a typed failure before
invoking the wrapped handler, performing no side effect. -/
def validate (v : α → Bool) (h : Handler α β) : Handler α β :=
  fun req ctx =>
    if v req then h req ctx
    else .error (.connect ⟨.InvalidArgument, "Invalid input."⟩)

/-- Modelled from the spec: the `auth` middleware (src/manager/api/middleware.ts
is not in the source tree) rejects unauthenticated callers before invoking the
wrapped handler. -/
def auth (h : Handler α β) : Handler α β :=
  fun req ctx =>
    if ctx.authed then h req ctx
    else .error (.connect ⟨.Unauthenticated, "Unauthenticated."⟩)

/-- Modelled from the spec: the `enforceSetup` middleware (src/manager/api/middleware.ts
is not in the source tree) rejects with `FailedPrecondition` while
`SetupState.done` is false, and otherwise invokes the wrapped handler. -/
def enforceSetup (h : Handler α β) : Handler α β :=
  fun req ctx =>
    if ctx.setupDone then h req ctx
    else .error (.connect ⟨.FailedPrecondition, "Setup not complete."⟩)

/-- Normalization of one handler outcome: a raw, otherwise-unhandled failure is
converted to `Internal`; typed failures and successes pass through. -/
def catchE (r : Except Failure β) : Except Failure β :=
  match r with
  | .error (.raw m) => .error (.connect ⟨.Internal, m⟩)
  | r => r

/-- Modelled from the spec: the `catchErrors` middleware (src/manager/api/middleware.ts
is not in the source tree) is the error-normalization stage: it catches any
otherwise-unhandled failure of the wrapped handler and converts it to `Internal`. -/
def catchErrors (h : Handler α β) : Handler α β :=
  fun req ctx => catchE (h req ctx)

/-! ### Route registration (src/manager/api/api.ts lines 232-247)

One definition per registered route, parametric in the validator produced by
`typia.createAssertEquals` and in the business handler, mirroring the exact
wrapping of each line of the `router.service` call. -/

/-- Line 234: `setup: catchErrors(validate(setupInputValid, auth(setupHandler)))`. -/
def havenSetup (v : α → Bool) (h : Handler α β) : Handler α β :=
  catchErrors (validate v (auth h))

/-- Line 236: `chatCompletion: auth(enforceSetup(chatCompletion))`. -/
def havenChatCompletion (h : Handler α β) : Handler α β :=
  auth (enforceSetup h)

/-- Line 238: `listModels: catchErrors(validate(listModelsInputValid, auth(enforceSetup(listModels))))`. -/
def havenListModels (v : α → Bool) (h : Handler α β) : Handler α β :=
  catchErrors (validate v (auth (enforceSetup h)))

/-- Line 239: `listWorkers: catchErrors(validate(listWorkersInputValid, auth(enforceSetup(listWorkers))))`. -/
def havenListWorkers (v : α → Bool) (h : Handler α β) : Handler α β :=
  catchErrors (validate v (auth (enforceSetup h)))

/-- Lines 241-243: `createInferenceWorker: catchErrors(validate(createInferenceWorkerInputValid, auth(enforceSetup(createInferenceWorker))))`. -/
def havenCreateInferenceWorker (v : α → Bool) (h : Handler α β) : Handler α β :=
  catchErrors (validate v (auth (enforceSetup h)))

/-- Line 244: `pauseInferenceWorker: catchErrors(validate(inferenceWorkerValid, auth(enforceSetup(pauseWorker))))`. -/
def havenPauseInferenceWorker (v : α → Bool) (h : Handler α β) : Handler α β :=
  catchErrors (validate v (auth (enforceSetup h)))

/-- Line 245: `resumeInferenceWorker: catchErrors(validate(inferenceWorkerValid, auth(enforceSetup(resumeWorker))))`. -/
def havenResumeInferenceWorker (v : α → Bool) (h : Handler α β) : Handler α β :=
  catchErrors (validate v (auth (enforceSetup h)))

/-- Line 246: `deleteInferenceWorker: catchErrors(validate(inferenceWorkerValid, auth(enforceSetup(deleteWorker))))`. -/
def havenDeleteInferenceWorker (v : α → Bool) (h : Handler α β) : Handler α β :=
  catchErrors (validate v (auth (enforceSetup h)))

/-- The pipeline shape the spec requires of every non-bootstrap operation,
written from the spec's words: schema validation, then authentication, then the
setup-readiness gate, then the business handler, then error normalization. -/
def specRequiredStages (v : α → Bool) (h : Handler α β) : Handler α β :=
  catchErrors (validate v (auth (enforceSetup h)))

/-- A business handler that fails with a raw, otherwise-unhandled exception. -/
def rawBoom : Handler Unit Unit :=
  fun _ _ => .error (.raw "boom")

/-- True exactly on a failure already normalized to `Internal`. -/
def isInternalFailure (r : Except Failure β) : Bool :=
  match r with
  | .error (.connect ⟨.Internal, _⟩) => true
  | _ => false

/-! ## Theorems -/

/-- A worker found by name carries exactly that name. -/
theorem findWorker_name {ws : List GWorker} {n : String} {w : GWorker}
    (h : findWorker ws n = some w) : w.name = some n := by
  have hp := List.find?_some h
  exact of_decide_eq_true hp

/-- A name absent from the listing makes the lookup fail. -/
theorem findWorker_eq_none {ws : List GWorker} {n : String}
    (h : ∀ w ∈ ws, w.name ≠ some n) : findWorker ws n = none := by
  apply List.find?_eq_none.mpr
  intro w hw
  simp [h w hw]

/-- C10: pauseWorker, resumeWorker and deleteWorker on the empty worker name
fail with `NotFound` with no upstream call and no log, whatever the listing
contains — a record found with a falsy name field is rejected the same as no
record. -/
theorem empty_name_notFound (env : FleetEnv) :
    pauseWorker env "" = ⟨.error ⟨.NotFound, notFoundMsg ""⟩, [], []⟩ ∧
    resumeWorker env "" = ⟨.error ⟨.NotFound, notFoundMsg ""⟩, [], []⟩ ∧
    deleteWorker env "" = ⟨.error ⟨.NotFound, notFoundMsg ""⟩, [], []⟩ := by
  cases hf : findWorker env.workers "" with
  | none =>
    exact ⟨by simp [pauseWorker, hf], by simp [resumeWorker, hf], by simp [deleteWorker, hf]⟩
  | some w =>
    have hw := findWorker_name hf
    exact ⟨by simp [pauseWorker, hf, hw], by simp [resumeWorker, hf, hw],
      by simp [deleteWorker, hf, hw]⟩

/-- C2: when no worker record in the listing carries the requested name, each of
pauseWorker, resumeWorker and deleteWorker fails with `NotFound` and issues no
upstream mutating call (no pause, start, remove, or shutdown notification). -/
theorem absent_worker_notFound_no_calls (env : FleetEnv) (n : String)
    (habs : ∀ w ∈ env.workers, w.name ≠ some n) :
    pauseWorker env n = ⟨.error ⟨.NotFound, notFoundMsg n⟩, [], []⟩ ∧
    resumeWorker env n = ⟨.error ⟨.NotFound, notFoundMsg n⟩, [], []⟩ ∧
    deleteWorker env n = ⟨.error ⟨.NotFound, notFoundMsg n⟩, [], []⟩ := by
  have hf := findWorker_eq_none habs
  exact ⟨by simp [pauseWorker, hf], by simp [resumeWorker, hf], by simp [deleteWorker, hf]⟩

/-- C2 witness: a listing holding one worker named w2 has no record named w1. -/
theorem absent_worker_notFound_no_calls_witness :
    pauseWorker ⟨[⟨some "w2", some "RUNNING", none⟩], none, none, none, none⟩ "w1"
      = ⟨.error ⟨.NotFound, notFoundMsg "w1"⟩, [], []⟩ ∧
    resumeWorker ⟨[⟨some "w2", some "RUNNING", none⟩], none, none, none, none⟩ "w1"
      = ⟨.error ⟨.NotFound, notFoundMsg "w1"⟩, [], []⟩ ∧
    deleteWorker ⟨[⟨some "w2", some "RUNNING", none⟩], none, none, none, none⟩ "w1"
      = ⟨.error ⟨.NotFound, notFoundMsg "w1"⟩, [], []⟩ :=
  absent_worker_notFound_no_calls
    ⟨[⟨some "w2", some "RUNNING", none⟩], none, none, none, none⟩ "w1" (by decide)

/-- C3: resumeWorker on an existing worker (nonempty name) whose status is not
the paused/terminated state TERMINATED fails with `FailedPrecondition` and
issues no upstream call at all, in particular no start call. -/
theorem resume_not_terminated_failedPrecondition (env : FleetEnv) (n : String)
    (w : GWorker) (hf : findWorker env.workers n = some w) (hn : n ≠ "")
    (hs : w.status ≠ some "TERMINATED") :
    resumeWorker env n =
      ⟨.error ⟨.FailedPrecondition, "Worker " ++ n ++ " is not paused"⟩, [], []⟩ := by
  have hw := findWorker_name hf
  simp [resumeWorker, hf, hw, hn, hs]

/-- C3 witness: resuming a RUNNING worker fails with `FailedPrecondition`. -/
theorem resume_not_terminated_failedPrecondition_witness :
    resumeWorker ⟨[⟨some "w1", some "RUNNING", none⟩], none, none, none, none⟩ "w1"
      = ⟨.error ⟨.FailedPrecondition, "Worker " ++ "w1" ++ " is not paused"⟩, [], []⟩ :=
  resume_not_terminated_failedPrecondition
    ⟨[⟨some "w1", some "RUNNING", none⟩], none, none, none, none⟩ "w1"
    ⟨some "w1", some "RUNNING", none⟩ (by decide) (by decide) (by decide)

/-- C9: pauseWorker and deleteWorker impose no status precondition: for any
existing worker (nonempty name), whatever its listed status, the upstream pause
respectively remove call is issued. -/
theorem pause_delete_no_status_precondition (env : FleetEnv) (n : String)
    (w : GWorker) (hf : findWorker env.workers n = some w) (hn : n ≠ "") :
    UpstreamCall.pauseVM n ∈ (pauseWorker env n).calls ∧
    UpstreamCall.removeVM n ∈ (deleteWorker env n).calls := by
  have hw := findWorker_name hf
  constructor
  · cases hp : env.pauseErr <;> simp [pauseWorker, hf, hw, hn, hp]
  · cases hr : env.removeErr <;> simp [deleteWorker, hf, hw, hn, hr]

/-- C9 witness: a worker still provisioning (status STAGING, already-terminated
alike) is paused and deleted without a status check. -/
theorem pause_delete_no_status_precondition_witness :
    UpstreamCall.pauseVM "w1" ∈
      (pauseWorker ⟨[⟨some "w1", some "STAGING", none⟩], none, none, none, none⟩ "w1").calls ∧
    UpstreamCall.removeVM "w1" ∈
      (deleteWorker ⟨[⟨some "w1", some "STAGING", none⟩], none, none, none, none⟩ "w1").calls :=
  pause_delete_no_status_precondition
    ⟨[⟨some "w1", some "STAGING", none⟩], none, none, none, none⟩ "w1"
    ⟨some "w1", some "STAGING", none⟩ (by decide) (by decide)

/-- C6: for an existing worker with no resolved address, pauseWorker and
deleteWorker skip the shutdown notification and still succeed when the upstream
pause/remove call succeeds; and for an existing worker with an address, a
failing shutdown notification is logged and never changes the operation's
outcome (the result is the same as when the notification succeeds). -/
theorem shutdown_best_effort (env env2 : FleetEnv) (n n2 : String)
    (w w2 : GWorker) (m ip : String)
    (hf : findWorker env.workers n = some w) (hn : n ≠ "")
    (hip : getWorkerIP w = none)
    (hpe : env.pauseErr = none) (hre : env.removeErr = none)
    (hf2 : findWorker env2.workers n2 = some w2) (hn2 : n2 ≠ "")
    (hip2 : getWorkerIP w2 = some ip) :
    pauseWorker env n = ⟨.ok n, [.pauseVM n], []⟩ ∧
    deleteWorker env n = ⟨.ok n, [.removeVM n], []⟩ ∧
    (pauseWorker { env2 with shutdownErr := some m } n2).result
      = (pauseWorker { env2 with shutdownErr := none } n2).result ∧
    shutdownLogMsg n2 m ∈ (pauseWorker { env2 with shutdownErr := some m } n2).logs ∧
    (deleteWorker { env2 with shutdownErr := some m } n2).result
      = (deleteWorker { env2 with shutdownErr := none } n2).result ∧
    shutdownLogMsg n2 m ∈ (deleteWorker { env2 with shutdownErr := some m } n2).logs := by
  have hw := findWorker_name hf
  have hw2 := findWorker_name hf2
  refine ⟨?_, ?_, ?_, ?_, ?_, ?_⟩
  · simp [pauseWorker, hf, hw, hn, hpe, shutdownStep, hip]
  · simp [deleteWorker, hf, hw, hn, hre, shutdownStep, hip]
  · cases hp : env2.pauseErr <;>
      simp [pauseWorker, hf2, hw2, hn2, hp, shutdownStep, hip2]
  · cases hp : env2.pauseErr <;>
      simp [pauseWorker, hf2, hw2, hn2, hp, shutdownStep, hip2]
  · cases hr : env2.removeErr <;>
      simp [deleteWorker, hf2, hw2, hn2, hr, shutdownStep, hip2]
  · cases hr : env2.removeErr <;>
      simp [deleteWorker, hf2, hw2, hn2, hr, shutdownStep, hip2]

/-- C6 witness: worker w1 has no address (notification skipped, operation
succeeds); worker w2 has address 10.0.0.5 whose shutdown notification fails
with message refused, which is logged and does not change the outcome. -/
theorem shutdown_best_effort_witness :
    pauseWorker ⟨[⟨some "w1", some "RUNNING", none⟩], none, none, none, none⟩ "w1"
      = ⟨.ok "w1", [.pauseVM "w1"], []⟩ ∧
    deleteWorker ⟨[⟨some "w1", some "RUNNING", none⟩], none, none, none, none⟩ "w1"
      = ⟨.ok "w1", [.removeVM "w1"], []⟩ ∧
    (pauseWorker ⟨[⟨some "w2", some "RUNNING", some "10.0.0.5"⟩],
        some "refused", none, none, none⟩ "w2").result
      = (pauseWorker ⟨[⟨some "w2", some "RUNNING", some "10.0.0.5"⟩],
          none, none, none, none⟩ "w2").result ∧
    shutdownLogMsg "w2" "refused" ∈
      (pauseWorker ⟨[⟨some "w2", some "RUNNING", some "10.0.0.5"⟩],
        some "refused", none, none, none⟩ "w2").logs ∧
    (deleteWorker ⟨[⟨some "w2", some "RUNNING", some "10.0.0.5"⟩],
        some "refused", none, none, none⟩ "w2").result
      = (deleteWorker ⟨[⟨some "w2", some "RUNNING", some "10.0.0.5"⟩],
          none, none, none, none⟩ "w2").result ∧
    shutdownLogMsg "w2" "refused" ∈
      (deleteWorker ⟨[⟨some "w2", some "RUNNING", some "10.0.0.5"⟩],
        some "refused", none, none, none⟩ "w2").logs :=
  shutdown_best_effort
    ⟨[⟨some "w1", some "RUNNING", none⟩], none, none, none, none⟩
    ⟨[⟨some "w2", some "RUNNING", some "10.0.0.5"⟩], none, none, none, none⟩
    "w1" "w2" ⟨some "w1", some "RUNNING", none⟩ ⟨some "w2", some "RUNNING", some "10.0.0.5"⟩
    "refused" "10.0.0.5"
    (by decide) (by decide) (by decide) (by decide) (by decide)
    (by decide) (by decide) (by decide)

/-- C4: setupHandler is idempotent: when setup is done it returns success
leaving the state untouched for every input; when not done and no key file is
supplied it fails with `FailedPrecondition` without performing setup; a first
call with a key file succeeds and sets the state done, after which a further
call with any input (with or without payload) is a no-op success. -/
theorem setup_idempotent (f : String) (kf kf2 : Option String) :
    setupHandler ⟨true⟩ kf = (.ok (), ⟨true⟩) ∧
    setupHandler ⟨false⟩ none = (.error ⟨.FailedPrecondition, "Setup not complete."⟩, ⟨false⟩) ∧
    (setupHandler ⟨false⟩ (some f)).1 = .ok () ∧
    (setupHandler ⟨false⟩ (some f)).2 = ⟨true⟩ ∧
    setupHandler (setupHandler ⟨false⟩ (some f)).2 kf2 = (.ok (), ⟨true⟩) := by
  refine ⟨?_, ?_, ?_, ?_, ?_⟩ <;> simp [setupHandler, setupController]

/-- C8: the chatCompletion relay is one-for-one and order preserving: the
yielded sequence has the same length as the upstream stream, and the text of
the i-th response equals the text of the i-th upstream fragment. -/
theorem chatCompletion_relays_in_order (stream : List Fragment) :
    (chatCompletion stream).length = stream.length ∧
    ∀ i : Nat, ((chatCompletion stream)[i]?).map ChatCompletionResponse.text
      = (stream[i]?).map Fragment.text := by
  constructor
  · simp [chatCompletion]
  · intro i
    simp only [chatCompletion, List.getElem?_map, Option.map_map]
    cases stream[i]? <;> rfl

/-- C1 counterexample: the registered chatCompletion route
(`auth(enforceSetup(chatCompletion))`, line 236) lets a raw, otherwise-unhandled
failure of the business handler reach the caller unconverted, whereas the
spec-required four-stage composition would have normalized it to `Internal`. -/
theorem chatCompletion_route_unnormalized_raw_failure :
    havenChatCompletion rawBoom () ⟨true, true⟩ = .error (.raw "boom") ∧
    isInternalFailure (havenChatCompletion rawBoom () ⟨true, true⟩) = false ∧
    isInternalFailure (specRequiredStages (fun _ => true) rawBoom () ⟨true, true⟩) = true :=
  ⟨rfl, rfl, rfl⟩

/-- C1 amended: for listModels, listWorkers, createInferenceWorker, pauseWorker,
resumeWorker and deleteWorker, the registered handler is exactly the
spec-required composition (schema validation, then authentication, then the
setup-readiness gate, then the business handler, then error normalization), and
for these operations an otherwise-unhandled raw failure of the business handler
is converted to `Internal`; chatCompletion, however, is registered wrapped only
by authentication and the setup gate, with neither schema validation nor error
normalization. -/
theorem pipeline_wrapping_amended (v : α → Bool) (h hc : Handler α β)
    (req : α) (ctx : PipeCtx) (m : String)
    (hv : v req = true) (ha : ctx.authed = true) (hs : ctx.setupDone = true)
    (hraw : h req ctx = .error (.raw m)) :
    havenListModels v h = specRequiredStages v h ∧
    havenListWorkers v h = specRequiredStages v h ∧
    havenCreateInferenceWorker v h = specRequiredStages v h ∧
    havenPauseInferenceWorker v h = specRequiredStages v h ∧
    havenResumeInferenceWorker v h = specRequiredStages v h ∧
    havenDeleteInferenceWorker v h = specRequiredStages v h ∧
    havenChatCompletion hc = auth (enforceSetup hc) ∧
    havenListModels v h req ctx = .error (.connect ⟨.Internal, m⟩) ∧
    havenListWorkers v h req ctx = .error (.connect ⟨.Internal, m⟩) ∧
    havenCreateInferenceWorker v h req ctx = .error (.connect ⟨.Internal, m⟩) ∧
    havenPauseInferenceWorker v h req ctx = .error (.connect ⟨.Internal, m⟩) ∧
    havenResumeInferenceWorker v h req ctx = .error (.connect ⟨.Internal, m⟩) ∧
    havenDeleteInferenceWorker v h req ctx = .error (.connect ⟨.Internal, m⟩) := by
  refine ⟨rfl, rfl, rfl, rfl, rfl, rfl, rfl, ?_, ?_, ?_, ?_, ?_, ?_⟩ <;>
    simp [havenListModels, havenListWorkers, havenCreateInferenceWorker,
      havenPauseInferenceWorker, havenResumeInferenceWorker,
      havenDeleteInferenceWorker, catchErrors, validate, auth, enforceSetup,
      catchE, hv, ha, hs, hraw]

/-- C1 amended, witness: at the always-true validator, an authenticated
post-setup context and the raw-failing business handler, the six wrapped routes
normalize the failure to `Internal`. -/
theorem pipeline_wrapping_amended_witness :
    havenListModels (fun _ => true) rawBoom = specRequiredStages (fun _ => true) rawBoom ∧
    havenListWorkers (fun _ => true) rawBoom = specRequiredStages (fun _ => true) rawBoom ∧
    havenCreateInferenceWorker (fun _ => true) rawBoom
      = specRequiredStages (fun _ => true) rawBoom ∧
    havenPauseInferenceWorker (fun _ => true) rawBoom
      = specRequiredStages (fun _ => true) rawBoom ∧
    havenResumeInferenceWorker (fun _ => true) rawBoom
      = specRequiredStages (fun _ => true) rawBoom ∧
    havenDeleteInferenceWorker (fun _ => true) rawBoom
      = specRequiredStages (fun _ => true) rawBoom ∧
    havenChatCompletion rawBoom = auth (enforceSetup rawBoom) ∧
    havenListModels (fun _ => true) rawBoom () ⟨true, true⟩
      = .error (.connect ⟨.Internal, "boom"⟩) ∧
    havenListWorkers (fun _ => true) rawBoom () ⟨true, true⟩
      = .error (.connect ⟨.Internal, "boom"⟩) ∧
    havenCreateInferenceWorker (fun _ => true) rawBoom () ⟨true, true⟩
      = .error (.connect ⟨.Internal, "boom"⟩) ∧
    havenPauseInferenceWorker (fun _ => true) rawBoom () ⟨true, true⟩
      = .error (.connect ⟨.Internal, "boom"⟩) ∧
    havenResumeInferenceWorker (fun _ => true) rawBoom () ⟨true, true⟩
      = .error (.connect ⟨.Internal, "boom"⟩) ∧
    havenDeleteInferenceWorker (fun _ => true) rawBoom () ⟨true, true⟩
      = .error (.connect ⟨.Internal, "boom"⟩) :=
  pipeline_wrapping_amended (fun _ => true) rawBoom rawBoom () ⟨true, true⟩ "boom"
    rfl rfl rfl rfl

/-- C5: every gated route (chatCompletion and the six validated routes), called
with valid input by an authenticated caller while setup is not done, fails with
`FailedPrecondition` — for every business handler, so the business handler is
never reached — and the same call returns the business handler's successful
result once setup is done. -/
theorem setup_gate_blocks_and_admits (v : α → Bool) (h : Handler α β)
    (req : α) (b : β)
    (hv : v req = true) (hok : h req ⟨true, true⟩ = .ok b) :
    havenChatCompletion h req ⟨true, false⟩
      = .error (.connect ⟨.FailedPrecondition, "Setup not complete."⟩) ∧
    havenListModels v h req ⟨true, false⟩
      = .error (.connect ⟨.FailedPrecondition, "Setup not complete."⟩) ∧
    havenListWorkers v h req ⟨true, false⟩
      = .error (.connect ⟨.FailedPrecondition, "Setup not complete."⟩) ∧
    havenCreateInferenceWorker v h req ⟨true, false⟩
      = .error (.connect ⟨.FailedPrecondition, "Setup not complete."⟩) ∧
    havenPauseInferenceWorker v h req ⟨true, false⟩
      = .error (.connect ⟨.FailedPrecondition, "Setup not complete."⟩) ∧
    havenResumeInferenceWorker v h req ⟨true, false⟩
      = .error (.connect ⟨.FailedPrecondition, "Setup not complete."⟩) ∧
    havenDeleteInferenceWorker v h req ⟨true, false⟩
      = .error (.connect ⟨.FailedPrecondition, "Setup not complete."⟩) ∧
    havenChatCompletion h req ⟨true, true⟩ = .ok b ∧
    havenListModels v h req ⟨true, true⟩ = .ok b ∧
    havenListWorkers v h req ⟨true, true⟩ = .ok b ∧
    havenCreateInferenceWorker v h req ⟨true, true⟩ = .ok b ∧
    havenPauseInferenceWorker v h req ⟨true, true⟩ = .ok b ∧
    havenResumeInferenceWorker v h req ⟨true, true⟩ = .ok b ∧
    havenDeleteInferenceWorker v h req ⟨true, true⟩ = .ok b := by
  refine ⟨?_, ?_, ?_, ?_, ?_, ?_, ?_, ?_, ?_, ?_, ?_, ?_, ?_, ?_⟩ <;>
    simp [havenChatCompletion, havenListModels, havenListWorkers,
      havenCreateInferenceWorker, havenPauseInferenceWorker,
      havenResumeInferenceWorker, havenDeleteInferenceWorker,
      catchErrors, validate, auth, enforceSetup, catchE, hv, hok]

/-- C5 witness: at the always-true validator and an always-succeeding business
handler, all seven gated routes reject before setup and succeed after. -/
theorem setup_gate_blocks_and_admits_witness :
    havenChatCompletion (fun _ _ => .ok ()) () ⟨true, false⟩
      = .error (.connect ⟨.FailedPrecondition, "Setup not complete."⟩) ∧
    havenListModels (fun _ => true) (fun _ _ => .ok ()) () ⟨true, false⟩
      = .error (.connect ⟨.FailedPrecondition, "Setup not complete."⟩) ∧
    havenListWorkers (fun _ => true) (fun _ _ => .ok ()) () ⟨true, false⟩
      = .error (.connect ⟨.FailedPrecondition, "Setup not complete."⟩) ∧
    havenCreateInferenceWorker (fun _ => true) (fun _ _ => .ok ()) () ⟨true, false⟩
      = .error (.connect ⟨.FailedPrecondition, "Setup not complete."⟩) ∧
    havenPauseInferenceWorker (fun _ => true) (fun _ _ => .ok ()) () ⟨true, false⟩
      = .error (.connect ⟨.FailedPrecondition, "Setup not complete."⟩) ∧
    havenResumeInferenceWorker (fun _ => true) (fun _ _ => .ok ()) () ⟨true, false⟩
      = .error (.connect ⟨.FailedPrecondition, "Setup not complete."⟩) ∧
    havenDeleteInferenceWorker (fun _ => true) (fun _ _ => .ok ()) () ⟨true, false⟩
      = .error (.connect ⟨.FailedPrecondition, "Setup not complete."⟩) ∧
    havenChatCompletion (fun _ _ => .ok ()) () ⟨true, true⟩ = .ok () ∧
    havenListModels (fun _ => true) (fun _ _ => .ok ()) () ⟨true, true⟩ = .ok () ∧
    havenListWorkers (fun _ => true) (fun _ _ => .ok ()) () ⟨true, true⟩ = .ok () ∧
    havenCreateInferenceWorker (fun _ => true) (fun _ _ => .ok ()) () ⟨true, true⟩ = .ok () ∧
    havenPauseInferenceWorker (fun _ => true) (fun _ _ => .ok ()) () ⟨true, true⟩ = .ok () ∧
    havenResumeInferenceWorker (fun _ => true) (fun _ _ => .ok ()) () ⟨true, true⟩ = .ok () ∧
    havenDeleteInferenceWorker (fun _ => true) (fun _ _ => .ok ()) () ⟨true, true⟩ = .ok () :=
  setup_gate_blocks_and_admits (fun _ => true) (fun _ _ => .ok ()) () () rfl rfl

/-- C7: the registered setup route is exactly error normalization around schema
validation around authentication around the handler — no setup-readiness gate —
and with valid input from an authenticated caller it reaches the handler even
while setup is not done (the route returns the normalized handler outcome). -/
theorem setup_route_not_gated (v : α → Bool) (h : Handler α β) (req : α)
    (hv : v req = true) :
    havenSetup v h = catchErrors (validate v (auth h)) ∧
    havenSetup v h req ⟨true, false⟩ = catchE (h req ⟨true, false⟩) := by
  refine ⟨rfl, ?_⟩
  simp [havenSetup, catchErrors, validate, auth, hv]

/-- C7 witness: with setup not done, the setup route returns the handler's own
successful outcome instead of a gate rejection. -/
theorem setup_route_not_gated_witness :
    havenSetup (fun (_ : Unit) => true)
        (fun (_ : Unit) (_ : PipeCtx) => (.ok () : Except Failure Unit))
      = catchErrors (validate (fun (_ : Unit) => true)
          (auth (fun (_ : Unit) (_ : PipeCtx) => (.ok () : Except Failure Unit)))) ∧
    havenSetup (fun (_ : Unit) => true)
        (fun (_ : Unit) (_ : PipeCtx) => (.ok () : Except Failure Unit)) () ⟨true, false⟩
      = catchE ((fun (_ : Unit) (_ : PipeCtx) =>
          (.ok () : Except Failure Unit)) () ⟨true, false⟩) :=
  setup_route_not_gated (fun _ => true)
    (fun (_ : Unit) (_ : PipeCtx) => (.ok () : Except Failure Unit)) () rfl

end Haven
